import Mathlib

/-!
Verification of the marketplace authentication/authorization core.

The definitions below are a shallow embedding of the repository's
JavaScript sources:
- `src/services/shared/utils/crypto.js` (password hashing / verification),
- the JWT utility module (`generateAccessToken`, `generateRefreshToken`,
  `verifyToken`, `verifyRefreshToken`),
- `src/services/auth-service/src/models/user.model.js` (credential store
  and refresh-token ledger),
- the auth controller (`login`, `refreshToken`, `logout`, `changePassword`),
- `src/services/shared/middleware/rbac.js` (`authorize`, `requirePermission`),
- the environment-driven configuration of the JWT module and the lockout
  constants of the user model.

Passwords, salts, derived keys and stored password hashes are modelled as
`List Char` (the character data of the JavaScript strings); timestamps are
seconds since epoch as `Nat`.
-/

namespace Marketplace

/-! ### Password hashing (crypto.js) -/

/-- JavaScript `hash.split(':')`: splits a character list at every colon.
Always returns at least one (possibly empty) segment, like the JS method. -/
def splitOnColon : List Char → List (List Char)
  | [] => [[]]
  | c :: rest =>
    if c = ':' then [] :: splitOnColon rest
    else
      match splitOnColon rest with
      | [] => [[c]]
      | s :: ss => (c :: s) :: ss

/-- `hashPassword` from crypto.js: PBKDF2 with a per-call salt, output encoded
as `salt:derivedKeyHex`.  The key-derivation function `kdf` (password, salt ↦
derived key, hex characters) is a parameter of the embedding; the source fixes
it to PBKDF2-HMAC-SHA512 with 100000 iterations.  The random salt drawn inside
the JS function is externalized as the `salt` argument. -/
def hashPassword (kdf : List Char → List Char → List Char)
    (salt password : List Char) : List Char :=
  salt ++ ':' :: kdf password salt

/-- `verifyPassword` from crypto.js: destructures `hash.split(':')` into
`[salt, key]` and compares `key` with the derived key recomputed from the
presented password.  A malformed hash (fewer than two segments) compares a
string against JS `undefined`, which is `false`. -/
def verifyPassword (kdf : List Char → List Char → List Char)
    (password hashed : List Char) : Bool :=
  match splitOnColon hashed with
  | salt :: key :: _ => decide (key = kdf password salt)
  | _ => false

theorem splitOnColon_ne_nil (l : List Char) : splitOnColon l ≠ [] := by
  cases l with
  | nil => simp [splitOnColon]
  | cons c rest =>
    simp only [splitOnColon]
    split
    · simp
    · split <;> simp

theorem splitOnColon_of_no_colon (l : List Char) (h : ':' ∉ l) :
    splitOnColon l = [l] := by
  induction l with
  | nil => rfl
  | cons c rest ih =>
    have hc : c ≠ ':' := fun hc => h (hc ▸ List.mem_cons_self c rest)
    have hrest : ':' ∉ rest := fun hr => h (List.mem_cons_of_mem c hr)
    simp only [splitOnColon, if_neg hc, ih hrest]

theorem splitOnColon_append (s t : List Char) (h : ':' ∉ s) :
    splitOnColon (s ++ ':' :: t) = s :: splitOnColon t := by
  induction s with
  | nil => simp [splitOnColon]
  | cons c s' ih =>
    have hc : c ≠ ':' := fun hc => h (hc ▸ List.mem_cons_self c s')
    have hs' : ':' ∉ s' := fun hr => h (List.mem_cons_of_mem c hr)
    simp only [List.cons_append, splitOnColon, if_neg hc, List.append_eq, ih hs']

theorem verifyPassword_hashPassword (kdf : List Char → List Char → List Char)
    (salt p : List Char) (hsalt : ':' ∉ salt) (hout : ':' ∉ kdf p salt) :
    verifyPassword kdf p (hashPassword kdf salt p) = true := by
  simp [verifyPassword, hashPassword, splitOnColon_append salt _ hsalt,
    splitOnColon_of_no_colon _ hout]

theorem verifyPassword_hashPassword_ne
    (kdf : List Char → List Char → List Char) (salt p q : List Char)
    (hsalt : ':' ∉ salt) (hout : ':' ∉ kdf p salt)
    (hne : kdf q salt ≠ kdf p salt) :
    verifyPassword kdf q (hashPassword kdf salt p) = false := by
  simp only [verifyPassword, hashPassword, splitOnColon_append salt _ hsalt,
    splitOnColon_of_no_colon _ hout]
  simp [Ne.symm hne]

/-! ### JWT token service (shared JWT utility module) -/

/-- Claims carried by a signed token.  Access tokens carry userId, email and
role; refresh tokens carry userId and tokenVersion (email/role absent, i.e.
`none`, matching the sanitized payloads built in the source). -/
structure JwtPayload where
  userId : String
  email : Option String
  role : Option String
  tokenVersion : Option Nat
deriving Repr, DecidableEq

/-- A signed JWT, shallow-embedded: instead of a base64 string we keep the
payload, the registered claims, and the secret the token was signed with
(standing in for the HMAC signature: a signature verifies under `s` exactly
when the token was signed with `s`). -/
structure Jwt where
  payload : JwtPayload
  iat : Nat
  exp : Nat
  iss : String
  aud : String
  secret : String
deriving Repr, DecidableEq

/-- The module-level configuration of the JWT utility: the signing secret and
the two expiry horizons (JWT_EXPIRATION, JWT_REFRESH_EXPIRATION) already
parsed into seconds. -/
structure JwtConfig where
  secret : String
  accessExpSeconds : Nat
  refreshExpSeconds : Nat
deriving Repr, DecidableEq

/-- The defaults: expiresIn '24h' for access tokens and '7d' for refresh
tokens. -/
def defaultJwtConfig (secret : String) : JwtConfig :=
  { secret := secret, accessExpSeconds := 24 * 60 * 60
    refreshExpSeconds := 7 * 24 * 60 * 60 }

/-- `generateAccessToken`: signs (userId, email, role, iat) with the shared
secret, expiry `now + JWT_EXPIRATION`, issuer 'secure-marketplace', audience
'marketplace-api'. -/
def generateAccessToken (cfg : JwtConfig) (now : Nat)
    (userId email role : String) : Jwt :=
  { payload := { userId := userId, email := some email, role := some role
                 tokenVersion := none }
    iat := now, exp := now + cfg.accessExpSeconds
    iss := "secure-marketplace", aud := "marketplace-api"
    secret := cfg.secret }

/-- `generateRefreshToken`: signs (userId, tokenVersion) with the shared
secret, expiry `now + JWT_REFRESH_EXPIRATION`, issuer 'secure-marketplace',
audience 'marketplace-refresh'.  The controller always calls it without a
tokenVersion, so the `payload.tokenVersion || 0` fallback yields 0. -/
def generateRefreshToken (cfg : JwtConfig) (now : Nat) (userId : String) : Jwt :=
  { payload := { userId := userId, email := none, role := none
                 tokenVersion := some 0 }
    iat := now, exp := now + cfg.refreshExpSeconds
    iss := "secure-marketplace", aud := "marketplace-refresh"
    secret := cfg.secret }

/-- The two error classes thrown by the jsonwebtoken library that the source
distinguishes: TokenExpiredError and JsonWebTokenError (bad signature, bad
audience, bad issuer). -/
inductive JwtLibError where
  | tokenExpiredError
  | jsonWebTokenError
deriving Repr, DecidableEq

/-- `jwt.verify(token, secret, options)` as used by the source, with the
library's check order: signature first, then expiry (expired when the clock
has reached `exp`), then audience, then issuer. -/
def jwtVerify (secret iss aud : String) (now : Nat) (t : Jwt) :
    Except JwtLibError JwtPayload :=
  if t.secret ≠ secret then .error .jsonWebTokenError
  else if t.exp ≤ now then .error .tokenExpiredError
  else if t.aud ≠ aud then .error .jsonWebTokenError
  else if t.iss ≠ iss then .error .jsonWebTokenError
  else .ok t.payload

/-- Errors surfaced by the JWT utility module: `verifyToken` maps
TokenExpiredError to 'Token expired' and JsonWebTokenError to 'Invalid
token'; `verifyRefreshToken` collapses every failure into 'Invalid refresh
token'. -/
inductive TokenError where
  | tokenExpired
  | tokenInvalid
  | invalidRefreshToken
deriving Repr, DecidableEq

/-- `verifyToken`: verifies signature, expiry, issuer 'secure-marketplace'
and audience 'marketplace-api', distinguishing expired from invalid. -/
def verifyToken (cfg : JwtConfig) (now : Nat) (t : Jwt) :
    Except TokenError JwtPayload :=
  match jwtVerify cfg.secret "secure-marketplace" "marketplace-api" now t with
  | .ok p => .ok p
  | .error .tokenExpiredError => .error .tokenExpired
  | .error .jsonWebTokenError => .error .tokenInvalid

/-- `verifyRefreshToken`: verifies signature, expiry, issuer
'secure-marketplace' and audience 'marketplace-refresh'; every failure is the
single 'Invalid refresh token' error. -/
def verifyRefreshToken (cfg : JwtConfig) (now : Nat) (t : Jwt) :
    Except TokenError JwtPayload :=
  match jwtVerify cfg.secret "secure-marketplace" "marketplace-refresh" now t with
  | .ok p => .ok p
  | .error _ => .error .invalidRefreshToken

/-! ### Credential store and refresh-token ledger (user.model.js) -/

/-- One row of the `users` table (the columns the auth core touches). -/
structure User where
  id : String
  email : String
  passwordHash : List Char
  role : String
  isActive : Bool
  failedLoginAttempts : Nat
  lockedUntil : Option Nat
  lastLogin : Option Nat
deriving Repr, DecidableEq

/-- One row of the `refresh_tokens` table: the ledger stores only a SHA-256
hash of the raw token, the expiry, and the revoked flag. -/
structure TokenRecord where
  userId : String
  tokenHash : Jwt
  expiresAt : Nat
  revoked : Bool
deriving Repr, DecidableEq

/-- The auth database: the `users` and `refresh_tokens` tables. -/
structure AuthDb where
  users : List User
  refreshTokens : List TokenRecord
deriving Repr, DecidableEq

/-- SHA-256 of the serialized token, idealized as collision-free: two tokens
hash equal exactly when they are equal.  Under that idealization the hash is
injective, so the embedding takes the identity on the token value; the ledger
below only ever compares hashes for equality. -/
def sha256 (t : Jwt) : Jwt := t

/-- `MAX_FAILED_ATTEMPTS` from user.model.js — a hard-coded constant. -/
def MAX_FAILED_ATTEMPTS : Nat := 5

/-- `LOCK_DURATION_MINUTES` from user.model.js — a hard-coded constant. -/
def LOCK_DURATION_MINUTES : Nat := 15

/-- The lock interval in seconds (`INTERVAL '15 minutes'`). -/
def lockDurationSeconds : Nat := LOCK_DURATION_MINUTES * 60

/-- The refresh-token row expiry horizon: 7 days (`storeRefreshToken`). -/
def refreshRowLifetimeSeconds : Nat := 7 * 24 * 60 * 60

/-- `findByEmail`: first user with this email whose `is_active` is true. -/
def findByEmail (db : AuthDb) (email : String) : Option User :=
  db.users.find? (fun u => u.email == email && u.isActive)

/-- `findById`: first user with this id whose `is_active` is true. -/
def findById (db : AuthDb) (userId : String) : Option User :=
  db.users.find? (fun u => u.id == userId && u.isActive)

/-- `verifyPassword` of the user model: reads the stored hash by id (note: no
`is_active` filter in this query) and delegates to the crypto utility. -/
def userVerifyPassword (kdf : List Char → List Char → List Char)
    (db : AuthDb) (userId : String) (password : List Char) : Bool :=
  match db.users.find? (fun u => u.id == userId) with
  | none => false
  | some u => verifyPassword kdf password u.passwordHash

/-- `updatePassword`: re-hashes and stores the new password for the user. -/
def updatePassword (kdf : List Char → List Char → List Char)
    (salt : List Char) (db : AuthDb) (userId : String)
    (newPassword : List Char) : AuthDb :=
  { db with users := db.users.map (fun u =>
      if u.id == userId then
        { u with passwordHash := hashPassword kdf salt newPassword }
      else u) }

/-- `updateLastLogin`: stamps the user's last_login column. -/
def updateLastLogin (db : AuthDb) (userId : String) (now : Nat) : AuthDb :=
  { db with users := db.users.map (fun u =>
      if u.id == userId then { u with lastLogin := some now } else u) }

/-- `incrementFailedLoginAttempts`: one atomic UPDATE that increments the
counter and, when the new counter reaches MAX_FAILED_ATTEMPTS, sets
`locked_until` to now + 15 minutes (otherwise leaves it unchanged). -/
def incrementFailedLoginAttempts (db : AuthDb) (userId : String) (now : Nat) :
    AuthDb :=
  { db with users := db.users.map (fun u =>
      if u.id == userId then
        { u with
          failedLoginAttempts := u.failedLoginAttempts + 1
          lockedUntil :=
            if MAX_FAILED_ATTEMPTS ≤ u.failedLoginAttempts + 1 then
              some (now + lockDurationSeconds)
            else u.lockedUntil }
      else u) }

/-- `resetFailedLoginAttempts`: zeroes the counter and clears the lock. -/
def resetFailedLoginAttempts (db : AuthDb) (userId : String) : AuthDb :=
  { db with users := db.users.map (fun u =>
      if u.id == userId then
        { u with failedLoginAttempts := 0, lockedUntil := none }
      else u) }

/-- `storeRefreshToken`: inserts a row carrying the SHA-256 of the token and
an expiry 7 days out. -/
def storeRefreshToken (db : AuthDb) (userId : String) (t : Jwt) (now : Nat) :
    AuthDb :=
  { db with refreshTokens := db.refreshTokens ++
      [{ userId := userId, tokenHash := sha256 t
         expiresAt := now + refreshRowLifetimeSeconds, revoked := false }] }

/-- `validateRefreshToken`: true when some row matches the (userId, token
hash) pair, is unexpired (`expires_at > CURRENT_TIMESTAMP`), and is not
revoked. -/
def validateRefreshToken (db : AuthDb) (userId : String) (t : Jwt)
    (now : Nat) : Bool :=
  db.refreshTokens.any (fun r =>
    r.userId == userId && r.tokenHash == sha256 t &&
    now < r.expiresAt && !r.revoked)

/-- `revokeRefreshToken`: sets `revoked` on every row matching the (userId,
token hash) pair. -/
def revokeRefreshToken (db : AuthDb) (userId : String) (t : Jwt) : AuthDb :=
  { db with refreshTokens := db.refreshTokens.map (fun r =>
      if r.userId == userId && r.tokenHash == sha256 t then
        { r with revoked := true }
      else r) }

/-- `revokeAllRefreshTokens`: sets `revoked` on every row of the user. -/
def revokeAllRefreshTokens (db : AuthDb) (userId : String) : AuthDb :=
  { db with refreshTokens := db.refreshTokens.map (fun r =>
      if r.userId == userId then { r with revoked := true } else r) }

/-! ### Auth controller (auth.controller.js) -/

/-- The typed errors of errorHandler.js that the auth controller throws,
plus the plain `Error('Invalid refresh token')` thrown by
`verifyRefreshToken` (which is not an AuthenticationError). -/
inductive ApiError where
  | validationError (msg : String)
  | authenticationError (msg : String)
  | conflictError (msg : String)
  | genericError (msg : String)
deriving Repr, DecidableEq

/-- The login controller's lock test: `locked_until` is set and lies in the
future (`new Date(user.locked_until) > new Date()`). -/
def accountLocked (u : User) (now : Nat) : Bool :=
  match u.lockedUntil with
  | some l => now < l
  | none => false

/-- The password rule of validation.js's user schema: length 8..128 and at
least one lowercase letter, one uppercase letter and one digit. -/
def validPassword (pw : List Char) : Bool :=
  8 ≤ pw.length && pw.length ≤ 128 &&
  pw.any (·.isLower) && pw.any (·.isUpper) && pw.any (·.isDigit)

/-- The data a successful login responds with. -/
structure LoginOk where
  userId : String
  email : String
  role : String
  accessToken : Jwt
  refreshToken : Jwt
deriving Repr, DecidableEq

/-- The `login` controller: requires email and password, looks the user up by
email, rejects while locked *before* verifying the password, increments the
failure counter on a wrong password, and on success resets the counter,
stamps last_login, issues both tokens and records the refresh token.  The
returned database reflects the mutations performed before the throw. -/
def login (kdf : List Char → List Char → List Char) (cfg : JwtConfig)
    (db : AuthDb) (now : Nat) (email : String) (password : List Char) :
    AuthDb × Except ApiError LoginOk :=
  if email = "" ∨ password = [] then
    (db, .error (.validationError "Email and password are required"))
  else
    match findByEmail db email with
    | none => (db, .error (.authenticationError "Invalid credentials"))
    | some u =>
      if accountLocked u now then
        (db, .error (.authenticationError "Account is temporarily locked"))
      else if userVerifyPassword kdf db u.id password then
        let db1 := updateLastLogin (resetFailedLoginAttempts db u.id) u.id now
        let access := generateAccessToken cfg now u.id u.email u.role
        let refresh := generateRefreshToken cfg now u.id
        (storeRefreshToken db1 u.id refresh now,
         .ok { userId := u.id, email := u.email, role := u.role
               accessToken := access, refreshToken := refresh })
      else
        (incrementFailedLoginAttempts db u.id now,
         .error (.authenticationError "Invalid credentials"))

/-- The `refreshToken` controller: requires the token, verifies its signature
and audience via `verifyRefreshToken`, then requires the ledger's
`validateRefreshToken`, then requires an existing active user, and only then
issues a new access token.  It never mutates the database. -/
def refreshOp (cfg : JwtConfig) (db : AuthDb) (now : Nat)
    (token : Option Jwt) : Except ApiError Jwt :=
  match token with
  | none => .error (.validationError "Refresh token is required")
  | some t =>
    match verifyRefreshToken cfg now t with
    | .error _ => .error (.genericError "Invalid refresh token")
    | .ok decoded =>
      if validateRefreshToken db decoded.userId t now then
        match findById db decoded.userId with
        | none => .error (.authenticationError "User not found")
        | some u => .ok (generateAccessToken cfg now u.id u.email u.role)
      else .error (.authenticationError "Invalid or revoked refresh token")

/-- The `logout` controller (reached only with an authenticated user): when a
refresh token is supplied, revokes it for the authenticated user; always
responds with success. -/
def logoutOp (db : AuthDb) (userId : String) (token : Option Jwt) : AuthDb :=
  match token with
  | some t => revokeRefreshToken db userId t
  | none => db

/-- The `changePassword` controller: validates the new password against the
user schema, re-verifies the current password, then updates the stored hash
and revokes every refresh token of the user. -/
def changePassword (kdf : List Char → List Char → List Char)
    (salt : List Char) (db : AuthDb) (userId : String)
    (currentPassword newPassword : List Char) : AuthDb × Except ApiError Unit :=
  if validPassword newPassword then
    if userVerifyPassword kdf db userId currentPassword then
      (revokeAllRefreshTokens (updatePassword kdf salt db userId newPassword)
         userId,
       .ok ())
    else (db, .error (.authenticationError "Current password is incorrect"))
  else (db, .error (.validationError "Validation failed"))

/-! ### RBAC middleware (rbac.js) and route declarations -/

/-- The decoded access-token claims the auth middleware puts on `req.user`. -/
structure Identity where
  userId : String
  email : String
  role : String
deriving Repr, DecidableEq

/-- Outcome of a guard middleware: either fall through to the handler or
respond immediately with an HTTP status and machine-readable code. -/
inductive MwResult where
  | next
  | respond (status : Nat) (code : String)
deriving Repr, DecidableEq

/-- `authorize(...allowedRoles)`: 401 AUTH_REQUIRED without an authenticated
user; 403 AUTHZ_FORBIDDEN when the user's role is not in the allow-list;
otherwise fall through.  A pure membership test — no role gets a bypass. -/
def authorize (allowedRoles : List String) (user : Option Identity) :
    MwResult :=
  match user with
  | none => .respond 401 "AUTH_REQUIRED"
  | some u =>
    if allowedRoles.contains u.role then .next
    else .respond 403 "AUTHZ_FORBIDDEN"

/-- The `rolePermissions` table: ADMIN holds the wildcard. -/
def rolePermissions (role : String) : List String :=
  if role = "ADMIN" then ["*"]
  else if role = "SELLER" then
    ["product:create", "product:read", "product:update", "product:delete",
     "order:read"]
  else if role = "BUYER" then
    ["product:read", "order:create", "order:read", "payment:create"]
  else []

/-- `requirePermission(permission)`: 401 without a user; pass on the wildcard
(ADMIN); otherwise 403 unless the role's permission list contains the
permission. -/
def requirePermission (permission : String) (user : Option Identity) :
    MwResult :=
  match user with
  | none => .respond 401 "AUTH_REQUIRED"
  | some u =>
    let perms := rolePermissions u.role
    if perms.contains "*" then .next
    else if perms.contains permission then .next
    else .respond 403 "AUTHZ_FORBIDDEN"

/-- Every allow-list declared with `authorize` on a route of this repository:
POST/PUT/DELETE on products (SELLER, ADMIN), POST /orders (BUYER, ADMIN),
GET /orders/all/admin (ADMIN), and POST /payments/process (BUYER, ADMIN). -/
def declaredRouteGates : List (List String) :=
  [["SELLER", "ADMIN"], ["SELLER", "ADMIN"], ["SELLER", "ADMIN"],
   ["BUYER", "ADMIN"], ["ADMIN"], ["BUYER", "ADMIN"]]

/-! ### Environment configuration (JWT module constants, server startup) -/

/-- The environment variables the JWT module and server read. -/
structure Env where
  jwtSecret : Option String
  jwtExpiration : Option String
  jwtRefreshExpiration : Option String
  nodeEnv : Option String
deriving Repr, DecidableEq

/-- The well-known development default of JWT_SECRET. -/
def defaultDevSecret : String := "your-secret-key-change-in-production"

/-- `JWT_SECRET = process.env.JWT_SECRET || default`. -/
def loadJwtSecret (env : Env) : String :=
  (env.jwtSecret.filter (· ≠ "")).getD defaultDevSecret

/-- `JWT_EXPIRATION = process.env.JWT_EXPIRATION || '24h'`. -/
def loadJwtExpiration (env : Env) : String :=
  (env.jwtExpiration.filter (· ≠ "")).getD "24h"

/-- `JWT_REFRESH_EXPIRATION = process.env.JWT_REFRESH_EXPIRATION || '7d'`. -/
def loadJwtRefreshExpiration (env : Env) : String :=
  (env.jwtRefreshExpiration.filter (· ≠ "")).getD "7d"

/-- server.js startup: initialize the database schema, then listen.  Startup
succeeds exactly when database initialization does; no configuration value —
in particular not the signing secret — is validated anywhere in startup. -/
def authServiceStartup (_env : Env) (dbInitOk : Bool) : Bool := dbInitOk

/-! ### Ledger mutations reachable after a revocation -/

/-- The three mutations any controller endpoint performs on the
`refresh_tokens` table: an insert (login/register), a single revocation
(logout), or a global revocation (changePassword). -/
inductive LedgerOp where
  | store (userId : String) (token : Jwt) (now : Nat)
  | revokeOne (userId : String) (token : Jwt)
  | revokeAll (userId : String)
deriving Repr, DecidableEq

/-- Apply one ledger mutation. -/
def applyLedgerOp (db : AuthDb) : LedgerOp → AuthDb
  | .store userId t now => storeRefreshToken db userId t now
  | .revokeOne userId t => revokeRefreshToken db userId t
  | .revokeAll userId => revokeAllRefreshTokens db userId

/-- Apply a sequence of ledger mutations, oldest first. -/
def applyLedgerOps (db : AuthDb) (ops : List LedgerOp) : AuthDb :=
  ops.foldl applyLedgerOp db

/-- `storesTokenFor op uid t`: the operation inserts a row that would again
match the (uid, hash of t) pair — i.e. it is a re-issue of that very token
to that user. -/
def storesTokenFor (op : LedgerOp) (userId : String) (t : Jwt) : Prop :=
  match op with
  | .store uid tok _ => uid = userId ∧ sha256 tok = sha256 t
  | _ => False

instance (op : LedgerOp) (userId : String) (t : Jwt) :
    Decidable (storesTokenFor op userId t) := by
  unfold storesTokenFor
  cases op <;> infer_instance

/-- All ledger rows matching the (userId, hash) pair are revoked. -/
def allRevokedFor (db : AuthDb) (userId : String) (h : Jwt) : Prop :=
  ∀ r ∈ db.refreshTokens, r.userId = userId → r.tokenHash = h →
    r.revoked = true

/-! ### Supporting lemmas -/

theorem verifyRefreshToken_generateRefreshToken (cfg : JwtConfig)
    (iat now : Nat) (userId : String)
    (h : now < iat + cfg.refreshExpSeconds) :
    verifyRefreshToken cfg now (generateRefreshToken cfg iat userId) =
      .ok { userId := userId, email := none, role := none
            tokenVersion := some 0 } := by
  simp [verifyRefreshToken, jwtVerify, generateRefreshToken, Nat.not_le.mpr h]

theorem verifyToken_generateAccessToken (cfg : JwtConfig) (iat now : Nat)
    (userId email role : String) (h : now < iat + cfg.accessExpSeconds) :
    verifyToken cfg now (generateAccessToken cfg iat userId email role) =
      .ok { userId := userId, email := some email, role := some role
            tokenVersion := none } := by
  simp [verifyToken, jwtVerify, generateAccessToken, Nat.not_le.mpr h]

theorem verifyToken_generateAccessToken_expired (cfg : JwtConfig)
    (iat now : Nat) (userId email role : String)
    (h : iat + cfg.accessExpSeconds ≤ now) :
    verifyToken cfg now (generateAccessToken cfg iat userId email role) =
      .error .tokenExpired := by
  simp [verifyToken, jwtVerify, generateAccessToken, h]

theorem allRevokedFor_revokeRefreshToken (db : AuthDb) (userId : String)
    (t : Jwt) :
    allRevokedFor (revokeRefreshToken db userId t) userId (sha256 t) := by
  intro r hr hu hh
  simp only [revokeRefreshToken, List.mem_map] at hr
  obtain ⟨r0, _, hr0⟩ := hr
  by_cases hc : (r0.userId == userId && r0.tokenHash == sha256 t) = true
  · rw [hc] at hr0
    simp [← hr0]
  · rw [Bool.not_eq_true] at hc
    rw [hc] at hr0
    simp only [Bool.false_eq_true, if_false] at hr0
    subst hr0
    have htrue : (r0.userId == userId && r0.tokenHash == sha256 t) = true := by
      simp [hu, hh]
    rw [htrue] at hc
    exact Bool.noConfusion hc

theorem allRevokedFor_applyLedgerOp (db : AuthDb) (userId : String) (t : Jwt)
    (op : LedgerOp) (hall : allRevokedFor db userId (sha256 t))
    (hop : ¬ storesTokenFor op userId t) :
    allRevokedFor (applyLedgerOp db op) userId (sha256 t) := by
  intro r hr hu hh
  cases op with
  | store uid tok n =>
    simp only [applyLedgerOp, storeRefreshToken, List.mem_append,
      List.mem_singleton] at hr
    rcases hr with hr | hr
    · exact hall r hr hu hh
    · subst hr
      simp only at hu hh
      exact absurd ⟨hu, hh⟩ hop
  | revokeOne uid tok =>
    simp only [applyLedgerOp, revokeRefreshToken, List.mem_map] at hr
    obtain ⟨r0, hr0m, hr0⟩ := hr
    by_cases hc : (r0.userId == uid && r0.tokenHash == sha256 tok) = true
    · rw [hc] at hr0
      simp [← hr0]
    · rw [Bool.not_eq_true] at hc
      rw [hc] at hr0
      simp only [Bool.false_eq_true, if_false] at hr0
      subst hr0
      exact hall r0 hr0m hu hh
  | revokeAll uid =>
    simp only [applyLedgerOp, revokeAllRefreshTokens, List.mem_map] at hr
    obtain ⟨r0, hr0m, hr0⟩ := hr
    by_cases hc : (r0.userId == uid) = true
    · rw [hc] at hr0
      simp only [if_true] at hr0
      simp [← hr0]
    · rw [Bool.not_eq_true] at hc
      rw [hc] at hr0
      simp only [Bool.false_eq_true, if_false] at hr0
      subst hr0
      exact hall r0 hr0m hu hh

theorem allRevokedFor_applyLedgerOps (db : AuthDb) (userId : String) (t : Jwt)
    (ops : List LedgerOp) (hall : allRevokedFor db userId (sha256 t))
    (hops : ∀ op ∈ ops, ¬ storesTokenFor op userId t) :
    allRevokedFor (applyLedgerOps db ops) userId (sha256 t) := by
  induction ops generalizing db with
  | nil => exact hall
  | cons op rest ih =>
    exact ih (applyLedgerOp db op)
      (allRevokedFor_applyLedgerOp db userId t op hall
        (hops op (List.mem_cons_self op rest)))
      (fun o ho => hops o (List.mem_cons_of_mem op ho))

theorem validateRefreshToken_eq_false_of_allRevoked (db : AuthDb)
    (userId : String) (t : Jwt) (now : Nat)
    (hall : allRevokedFor db userId (sha256 t)) :
    validateRefreshToken db userId t now = false := by
  simp only [validateRefreshToken, List.any_eq_false]
  intro r hr
  by_cases hu : r.userId = userId
  · by_cases hh : r.tokenHash = sha256 t
    · have := hall r hr hu hh
      simp [this]
    · simp [hh]
  · simp [hu]

theorem validateRefreshToken_revokeAll (db : AuthDb) (userId : String)
    (t : Jwt) (now : Nat) :
    validateRefreshToken (revokeAllRefreshTokens db userId) userId t now =
      false := by
  apply validateRefreshToken_eq_false_of_allRevoked
  intro r hr hu _
  simp only [revokeAllRefreshTokens, List.mem_map] at hr
  obtain ⟨r0, _, hr0⟩ := hr
  by_cases hc : (r0.userId == userId) = true
  · rw [hc] at hr0
    simp only [if_true] at hr0
    simp [← hr0]
  · rw [Bool.not_eq_true] at hc
    rw [hc] at hr0
    simp only [Bool.false_eq_true, if_false] at hr0
    subst hr0
    have htrue : (r0.userId == userId) = true := by simp [hu]
    rw [htrue] at hc
    exact Bool.noConfusion hc

theorem findById_eq_none_of_inactive (db : AuthDb) (userId : String)
    (h : ∀ u ∈ db.users, u.id = userId → u.isActive = false) :
    findById db userId = none := by
  simp only [findById, List.find?_eq_none]
  intro u hu
  by_cases hid : u.id = userId
  · simp [h u hu hid]
  · simp [hid]

theorem login_wrong_password (kdf : List Char → List Char → List Char)
    (cfg : JwtConfig) (i e rl : String) (ph : List Char)
    (ll lock : Option Nat) (n : Nat) (rts : List TokenRecord) (now : Nat)
    (q : List Char) (hene : e ≠ "") (hqne : q ≠ [])
    (hlock : accountLocked ⟨i, e, ph, rl, true, n, lock, ll⟩ now = false)
    (hwrong : verifyPassword kdf q ph = false) :
    login kdf cfg ⟨[⟨i, e, ph, rl, true, n, lock, ll⟩], rts⟩ now e q =
      (⟨[⟨i, e, ph, rl, true, n + 1,
          if MAX_FAILED_ATTEMPTS ≤ n + 1 then some (now + lockDurationSeconds)
          else lock, ll⟩], rts⟩,
       .error (.authenticationError "Invalid credentials")) := by
  simp [login, findByEmail, userVerifyPassword, incrementFailedLoginAttempts,
    hene, hqne, hlock, hwrong, List.find?]

theorem login_right_password (kdf : List Char → List Char → List Char)
    (cfg : JwtConfig) (i e rl : String) (ph : List Char)
    (ll lock : Option Nat) (n : Nat) (rts : List TokenRecord) (now : Nat)
    (p : List Char) (hene : e ≠ "") (hpne : p ≠ [])
    (hlock : accountLocked ⟨i, e, ph, rl, true, n, lock, ll⟩ now = false)
    (hright : verifyPassword kdf p ph = true) :
    login kdf cfg ⟨[⟨i, e, ph, rl, true, n, lock, ll⟩], rts⟩ now e p =
      (⟨[⟨i, e, ph, rl, true, 0, none, some now⟩],
        rts ++ [⟨i, sha256 (generateRefreshToken cfg now i),
                 now + refreshRowLifetimeSeconds, false⟩]⟩,
       .ok ⟨i, e, rl, generateAccessToken cfg now i e rl,
            generateRefreshToken cfg now i⟩) := by
  simp [login, findByEmail, userVerifyPassword, resetFailedLoginAttempts,
    updateLastLogin, storeRefreshToken, hene, hpne, hlock, hright,
    List.find?]

theorem login_while_locked (kdf : List Char → List Char → List Char)
    (cfg : JwtConfig) (i e rl : String) (ph : List Char)
    (ll : Option Nat) (lockT : Nat) (n : Nat) (rts : List TokenRecord)
    (now : Nat) (p : List Char) (hene : e ≠ "") (hpne : p ≠ [])
    (hlock : now < lockT) :
    login kdf cfg ⟨[⟨i, e, ph, rl, true, n, some lockT, ll⟩], rts⟩ now e p =
      (⟨[⟨i, e, ph, rl, true, n, some lockT, ll⟩], rts⟩,
       .error (.authenticationError "Account is temporarily locked")) := by
  simp [login, findByEmail, accountLocked, hene, hpne, hlock, List.find?]

/-! ### Claim theorems -/

/-- C1: a refresh token revoked via Logout can never again pass Refresh.
Refresh verifies signature/audience via the token service and then requires
the ledger's validity check; Logout marks every ledger row matching the
(userId, token-hash) pair revoked, and no subsequent ledger mutation short of
re-issuing that very token can make the check pass again, so every later
Refresh presenting the token fails with AuthenticationError even while its
signature is valid and its natural expiry has not passed. -/
theorem C1_revoked_token_never_refreshes (cfg : JwtConfig) (db : AuthDb)
    (userId : String) (iat now : Nat) (ops : List LedgerOp)
    (hfresh : now < iat + cfg.refreshExpSeconds)
    (hops : ∀ op ∈ ops,
      ¬ storesTokenFor op userId (generateRefreshToken cfg iat userId)) :
    refreshOp cfg
      (applyLedgerOps
        (logoutOp db userId (some (generateRefreshToken cfg iat userId))) ops)
      now (some (generateRefreshToken cfg iat userId)) =
      .error (.authenticationError "Invalid or revoked refresh token") := by
  have hall := allRevokedFor_applyLedgerOps
    (logoutOp db userId (some (generateRefreshToken cfg iat userId))) userId
    (generateRefreshToken cfg iat userId) ops
    (allRevokedFor_revokeRefreshToken db userId
      (generateRefreshToken cfg iat userId)) hops
  have hval := validateRefreshToken_eq_false_of_allRevoked _ userId _ now hall
  simp [refreshOp,
    verifyRefreshToken_generateRefreshToken cfg iat now userId hfresh, hval]

theorem C1_witness :
    (1 < 0 + (defaultJwtConfig "k").refreshExpSeconds) ∧
    refreshOp (defaultJwtConfig "k")
      (applyLedgerOps
        (logoutOp
          (storeRefreshToken ⟨[], []⟩ "u1"
            (generateRefreshToken (defaultJwtConfig "k") 0 "u1") 0) "u1"
          (some (generateRefreshToken (defaultJwtConfig "k") 0 "u1")))
        [LedgerOp.store "u2"
          (generateRefreshToken (defaultJwtConfig "k") 0 "u2") 2])
      1 (some (generateRefreshToken (defaultJwtConfig "k") 0 "u1")) =
      .error (.authenticationError "Invalid or revoked refresh token") :=
  ⟨by decide,
   C1_revoked_token_never_refreshes (defaultJwtConfig "k") _ "u1" 0 1 _
     (by decide) (by simp [storesTokenFor, sha256])⟩

/-- C4: a successful ChangePassword (current password re-verified) updates
the stored hash and revokes all outstanding refresh tokens of the user, so a
Refresh with any refresh token issued to that user before the change fails
with AuthenticationError afterwards. -/
theorem C4_change_password_invalidates_refresh_tokens
    (kdf : List Char → List Char → List Char) (salt : List Char)
    (cfg : JwtConfig) (db : AuthDb) (userId : String)
    (curPw newPw : List Char) (iat now : Nat)
    (hval : validPassword newPw = true)
    (hcur : userVerifyPassword kdf db userId curPw = true)
    (hfresh : now < iat + cfg.refreshExpSeconds) :
    (changePassword kdf salt db userId curPw newPw).2 = .ok () ∧
    refreshOp cfg (changePassword kdf salt db userId curPw newPw).1 now
      (some (generateRefreshToken cfg iat userId)) =
      .error (.authenticationError "Invalid or revoked refresh token") := by
  have h1 : changePassword kdf salt db userId curPw newPw =
      (revokeAllRefreshTokens (updatePassword kdf salt db userId newPw)
        userId, .ok ()) := by
    simp [changePassword, hval, hcur]
  rw [h1]
  refine ⟨rfl, ?_⟩
  simp [refreshOp,
    verifyRefreshToken_generateRefreshToken cfg iat now userId hfresh,
    validateRefreshToken_revokeAll]

/-- The PBKDF2 key-derivation function idealized for concrete witnesses: an
injective-in-the-password derivation. -/
def kdfId (password _salt : List Char) : List Char := password

theorem C4_witness :
    (validPassword "Newpass1".toList = true) ∧
    (userVerifyPassword kdfId
      ⟨[⟨"u1", "a@b.c", hashPassword kdfId "salt".toList "Oldpass1".toList,
         "BUYER", true, 0, none, none⟩],
        [⟨"u1", sha256 (generateRefreshToken (defaultJwtConfig "k") 0 "u1"),
          604800, false⟩]⟩
      "u1" "Oldpass1".toList = true) ∧
    refreshOp (defaultJwtConfig "k")
      (changePassword kdfId "s2".toList
        ⟨[⟨"u1", "a@b.c", hashPassword kdfId "salt".toList "Oldpass1".toList,
           "BUYER", true, 0, none, none⟩],
          [⟨"u1", sha256 (generateRefreshToken (defaultJwtConfig "k") 0 "u1"),
            604800, false⟩]⟩
        "u1" "Oldpass1".toList "Newpass1".toList).1
      1 (some (generateRefreshToken (defaultJwtConfig "k") 0 "u1")) =
      .error (.authenticationError "Invalid or revoked refresh token") :=
  ⟨by decide, by decide,
   (C4_change_password_invalidates_refresh_tokens kdfId "s2".toList
     (defaultJwtConfig "k") _ "u1" "Oldpass1".toList "Newpass1".toList 0 1
     (by decide) (by decide) (by decide)).2⟩

/-- C10: Refresh succeeds only for a currently existing, active user.  Even
when the token passes signature/audience verification and the ledger validity
check, if every user row with the token's userId is inactive (in particular
if there is none), `findById` — which filters on `is_active` — returns
nothing and Refresh fails with AuthenticationError, issuing no token. -/
theorem C10_refresh_requires_existing_active_user (cfg : JwtConfig)
    (db : AuthDb) (userId : String) (iat now : Nat)
    (hfresh : now < iat + cfg.refreshExpSeconds)
    (hledger : validateRefreshToken db userId
      (generateRefreshToken cfg iat userId) now = true)
    (hinactive : ∀ u ∈ db.users, u.id = userId → u.isActive = false) :
    refreshOp cfg db now (some (generateRefreshToken cfg iat userId)) =
      .error (.authenticationError "User not found") := by
  simp [refreshOp,
    verifyRefreshToken_generateRefreshToken cfg iat now userId hfresh,
    hledger, findById_eq_none_of_inactive db userId hinactive]

theorem C10_witness :
    (validateRefreshToken
      ⟨[⟨"u1", "a@b.c", "h".toList, "BUYER", false, 0, none, none⟩],
        [⟨"u1", sha256 (generateRefreshToken (defaultJwtConfig "k") 0 "u1"),
          604800, false⟩]⟩
      "u1" (generateRefreshToken (defaultJwtConfig "k") 0 "u1") 1 = true) ∧
    refreshOp (defaultJwtConfig "k")
      ⟨[⟨"u1", "a@b.c", "h".toList, "BUYER", false, 0, none, none⟩],
        [⟨"u1", sha256 (generateRefreshToken (defaultJwtConfig "k") 0 "u1"),
          604800, false⟩]⟩
      1 (some (generateRefreshToken (defaultJwtConfig "k") 0 "u1")) =
      .error (.authenticationError "User not found") :=
  ⟨by decide,
   C10_refresh_requires_existing_active_user (defaultJwtConfig "k") _ "u1" 0 1
     (by decide) (by decide) (by decide)⟩

/-- C5: verifyPassword(P, hashPassword(P)) is true, and for P' ≠ P it is
false.  The salt drawn inside hashPassword and the PBKDF2 derived key are hex
encoded in the source, hence colon-free; PBKDF2 is idealized as collision-free
for the fixed salt (hypothesis `hinj`), which is what makes the mismatch
direction of the claim hold. -/
theorem C5_password_hash_verify_roundtrip
    (kdf : List Char → List Char → List Char) (salt p : List Char)
    (hsalt : ':' ∉ salt) (hout : ':' ∉ kdf p salt)
    (hinj : ∀ q q', kdf q salt = kdf q' salt → q = q') :
    verifyPassword kdf p (hashPassword kdf salt p) = true ∧
    ∀ q, q ≠ p → verifyPassword kdf q (hashPassword kdf salt p) = false := by
  refine ⟨verifyPassword_hashPassword kdf salt p hsalt hout, ?_⟩
  intro q hq
  exact verifyPassword_hashPassword_ne kdf salt p q hsalt hout
    (fun hEq => hq (hinj q p hEq))

theorem C5_witness :
    verifyPassword kdfId "Secret123".toList
      (hashPassword kdfId "deadbeef".toList "Secret123".toList) = true ∧
    verifyPassword kdfId "Secret124".toList
      (hashPassword kdfId "deadbeef".toList "Secret123".toList) = false :=
  ⟨(C5_password_hash_verify_roundtrip kdfId "deadbeef".toList
      "Secret123".toList (by decide) (by decide) (fun _ _ h => h)).1,
   (C5_password_hash_verify_roundtrip kdfId "deadbeef".toList
      "Secret123".toList (by decide) (by decide) (fun _ _ h => h)).2
     "Secret124".toList (by decide)⟩

/-- C6: verifyToken applied to a token from generateAccessToken (with the
default 24-hour expiry) before expiry returns exactly the (userId, email,
role) it was issued with, and strictly after expiry fails with the
TokenExpired error, which is distinct from TokenInvalid. -/
theorem C6_access_token_roundtrip_and_expiry (secret userId email role : String)
    (iat now : Nat) :
    (now < iat + (defaultJwtConfig secret).accessExpSeconds →
      verifyToken (defaultJwtConfig secret) now
        (generateAccessToken (defaultJwtConfig secret) iat userId email role) =
        .ok ⟨userId, some email, some role, none⟩) ∧
    (iat + (defaultJwtConfig secret).accessExpSeconds < now →
      verifyToken (defaultJwtConfig secret) now
        (generateAccessToken (defaultJwtConfig secret) iat userId email role) =
        .error .tokenExpired) ∧
    TokenError.tokenExpired ≠ TokenError.tokenInvalid := by
  refine ⟨?_, ?_, by decide⟩
  · intro h
    exact verifyToken_generateAccessToken _ _ _ _ _ _ h
  · intro h
    exact verifyToken_generateAccessToken_expired _ _ _ _ _ _ (le_of_lt h)

theorem C6_witness :
    (1 < 0 + (defaultJwtConfig "k").accessExpSeconds) ∧
    verifyToken (defaultJwtConfig "k") 1
      (generateAccessToken (defaultJwtConfig "k") 0 "u1" "a@b.c" "BUYER") =
      .ok ⟨"u1", some "a@b.c", some "BUYER", none⟩ ∧
    (0 + (defaultJwtConfig "k").accessExpSeconds < 86401) ∧
    verifyToken (defaultJwtConfig "k") 86401
      (generateAccessToken (defaultJwtConfig "k") 0 "u1" "a@b.c" "BUYER") =
      .error .tokenExpired :=
  ⟨by decide,
   (C6_access_token_roundtrip_and_expiry "k" "u1" "a@b.c" "BUYER" 0 1).1
     (by decide),
   by decide,
   (C6_access_token_roundtrip_and_expiry "k" "u1" "a@b.c" "BUYER" 0 86401).2.1
     (by decide)⟩

/-- C7 counterexample: the claim fixes the embedded issuer as "marketplace",
but generateAccessToken signs with issuer 'secure-marketplace'. -/
theorem C7_counterexample :
    (generateAccessToken (defaultJwtConfig "k") 0 "u1" "a@b.c" "BUYER").iss ≠
      "marketplace" := by decide

/-- C7 amended: every token from generateAccessToken embeds issuer
"secure-marketplace" (not "marketplace") and audience "marketplace-api";
verification checks issuer and audience explicitly, so a token signed with
the correct secret but the wrong audience is rejected; consequently
verifyToken fails on every token from generateRefreshToken (audience
"marketplace-refresh") and verifyRefreshToken fails on every access token. -/
theorem C7_issuer_audience_separation (cfg : JwtConfig) (now iat : Nat)
    (userId email role : String) (t : Jwt) :
    (generateAccessToken cfg now userId email role).iss =
      "secure-marketplace" ∧
    (generateAccessToken cfg now userId email role).aud = "marketplace-api" ∧
    (t.secret = cfg.secret → now < t.exp → t.aud ≠ "marketplace-api" →
      verifyToken cfg now t = .error .tokenInvalid) ∧
    (∀ n, (verifyToken cfg n
      (generateRefreshToken cfg iat userId)).isOk = false) ∧
    (∀ n, (verifyRefreshToken cfg n
      (generateAccessToken cfg now userId email role)).isOk = false) := by
  refine ⟨rfl, rfl, ?_, ?_, ?_⟩
  · intro hs ht ha
    simp [verifyToken, jwtVerify, hs, Nat.not_le.mpr ht, ha]
  · intro n
    by_cases h : iat + cfg.refreshExpSeconds ≤ n
    · simp [verifyToken, jwtVerify, generateRefreshToken, h, Except.isOk, Except.toBool]
    · simp [verifyToken, jwtVerify, generateRefreshToken, h, Except.isOk, Except.toBool]
  · intro n
    by_cases h : now + cfg.accessExpSeconds ≤ n
    · simp [verifyRefreshToken, jwtVerify, generateAccessToken, h, Except.isOk, Except.toBool]
    · simp [verifyRefreshToken, jwtVerify, generateAccessToken, h, Except.isOk, Except.toBool]

theorem C7_witness :
    ("k" = (defaultJwtConfig "k").secret) ∧
    verifyToken (defaultJwtConfig "k") 1
      ⟨⟨"u1", none, none, some 0⟩, 0, 604800, "secure-marketplace",
        "marketplace-refresh", "k"⟩ = .error .tokenInvalid ∧
    (verifyToken (defaultJwtConfig "k") 1
      (generateRefreshToken (defaultJwtConfig "k") 0 "u1")).isOk = false ∧
    (verifyRefreshToken (defaultJwtConfig "k") 1
      (generateAccessToken (defaultJwtConfig "k") 0 "u1" "a@b.c"
        "BUYER")).isOk = false :=
  ⟨rfl,
   (C7_issuer_audience_separation (defaultJwtConfig "k") 1 0 "u1" "a@b.c"
     "BUYER" ⟨⟨"u1", none, none, some 0⟩, 0, 604800, "secure-marketplace",
       "marketplace-refresh", "k"⟩).2.2.1 rfl (by decide) (by decide),
   (C7_issuer_audience_separation (defaultJwtConfig "k") 1 0 "u1" "a@b.c"
     "BUYER" ⟨⟨"u1", none, none, some 0⟩, 0, 604800, "secure-marketplace",
       "marketplace-refresh", "k"⟩).2.2.2.1 1,
   (C7_issuer_audience_separation (defaultJwtConfig "k") 1 0 "u1" "a@b.c"
     "BUYER" ⟨⟨"u1", none, none, some 0⟩, 0, 604800, "secure-marketplace",
       "marketplace-refresh", "k"⟩).2.2.2.2 1⟩

/-- C9 counterexample: with JWT_SECRET unset and NODE_ENV=production, the
module falls back to the well-known development default and server startup
still succeeds (it only initializes the database and listens) — there is no
fatal startup error, contrary to the claim. -/
theorem C9_counterexample :
    loadJwtSecret ⟨none, none, none, some "production"⟩ = defaultDevSecret ∧
    authServiceStartup ⟨none, none, none, some "production"⟩ true = true := by
  exact ⟨rfl, rfl⟩

/-- C9 amended: the signing secret and the two token TTLs are read from the
environment with defaults ("your-secret-key-change-in-production", '24h',
'7d'); the lockout threshold and lockout duration are hard-coded constants
(5 attempts, 15 minutes), not environment-driven; and startup performs no
check of the signing secret at all — it succeeds exactly when database
initialization does, regardless of the environment, even with the
development default secret in production mode. -/
theorem C9_config_defaults_no_startup_check (env : Env) (dbInitOk : Bool)
    (s e r : String) (hs : s ≠ "") (he : e ≠ "") (hr : r ≠ "") :
    loadJwtSecret { env with jwtSecret := some s } = s ∧
    loadJwtSecret { env with jwtSecret := none } = defaultDevSecret ∧
    loadJwtExpiration { env with jwtExpiration := some e } = e ∧
    loadJwtExpiration { env with jwtExpiration := none } = "24h" ∧
    loadJwtRefreshExpiration { env with jwtRefreshExpiration := some r } = r ∧
    loadJwtRefreshExpiration { env with jwtRefreshExpiration := none } =
      "7d" ∧
    authServiceStartup env dbInitOk = dbInitOk ∧
    MAX_FAILED_ATTEMPTS = 5 ∧
    LOCK_DURATION_MINUTES = 15 := by
  refine ⟨?_, rfl, ?_, rfl, ?_, rfl, rfl, rfl, rfl⟩
  · simp [loadJwtSecret, Option.filter, hs]
  · simp [loadJwtExpiration, Option.filter, he]
  · simp [loadJwtRefreshExpiration, Option.filter, hr]

theorem C9_witness :
    ("prodsecret" ≠ "") ∧
    loadJwtSecret ⟨some "prodsecret", none, none, some "production"⟩ =
      "prodsecret" ∧
    loadJwtSecret ⟨none, some "1h", some "2d", none⟩ = defaultDevSecret ∧
    authServiceStartup ⟨some "prodsecret", none, none, some "production"⟩
      false = false :=
  ⟨by decide,
   (C9_config_defaults_no_startup_check
     ⟨some "x", none, none, some "production"⟩ false "prodsecret" "1h" "2d"
     (by decide) (by decide) (by decide)).1,
   (C9_config_defaults_no_startup_check ⟨some "x", some "1h", some "2d", none⟩
     false "prodsecret" "1h" "2d" (by decide) (by decide) (by decide)).2.1,
   (C9_config_defaults_no_startup_check
     ⟨some "prodsecret", none, none, some "production"⟩ false "prodsecret"
     "1h" "2d" (by decide) (by decide) (by decide)).2.2.2.2.2.2.1⟩

/-- C8 counterexample: `authorize` gives ADMIN no bypass — it is a pure
membership test — so an authenticated ADMIN hitting a gate whose declared
allow-list omits ADMIN (the claim's "regardless of the declared allow-list")
is rejected with 403, falsifying the claim's second half. -/
theorem C8_counterexample :
    authorize ["SELLER"] (some ⟨"a1", "a@b.c", "ADMIN"⟩) =
      .respond 403 "AUTHZ_FORBIDDEN" := by decide

/-- C8 amended: an authenticated identity whose role is not in the declared
allow-list (in particular a BUYER on a SELLER-only gate) receives 403
AUTHZ_FORBIDDEN; an ADMIN passes every role-gated operation declared in this
repository because every declared allow-list includes ADMIN — not because
`authorize` has an ADMIN bypass — and `requirePermission` does grant ADMIN
every permission via its wildcard entry. -/
theorem C8_rbac_forbidden_and_admin (roles : List String) (u a : Identity)
    (hu : ¬ roles.contains u.role = true) (ha : a.role = "ADMIN") :
    authorize roles (some u) = .respond 403 "AUTHZ_FORBIDDEN" ∧
    (∀ gate ∈ declaredRouteGates, authorize gate (some a) = .next) ∧
    (∀ perm, requirePermission perm (some a) = .next) := by
  refine ⟨?_, ?_, ?_⟩
  · simp only [authorize]
    rw [if_neg hu]
  · intro gate hgate
    simp only [declaredRouteGates, List.mem_cons, List.not_mem_nil,
      or_false] at hgate
    rcases hgate with h | h | h | h | h | h <;>
      simp [authorize, h, ha]
  · intro perm
    simp [requirePermission, rolePermissions, ha]

theorem C8_witness :
    (¬ (["SELLER", "ADMIN"].contains "BUYER") = true) ∧
    authorize ["SELLER", "ADMIN"] (some ⟨"b1", "b@b.c", "BUYER"⟩) =
      .respond 403 "AUTHZ_FORBIDDEN" ∧
    authorize ["SELLER", "ADMIN"] (some ⟨"a1", "a@b.c", "ADMIN"⟩) = .next ∧
    requirePermission "order:create" (some ⟨"a1", "a@b.c", "ADMIN"⟩) =
      .next :=
  ⟨by decide,
   (C8_rbac_forbidden_and_admin ["SELLER", "ADMIN"] ⟨"b1", "b@b.c", "BUYER"⟩
     ⟨"a1", "a@b.c", "ADMIN"⟩ (by decide) rfl).1,
   (C8_rbac_forbidden_and_admin ["SELLER", "ADMIN"] ⟨"b1", "b@b.c", "BUYER"⟩
     ⟨"a1", "a@b.c", "ADMIN"⟩ (by decide) rfl).2.1 ["SELLER", "ADMIN"]
     (by decide),
   (C8_rbac_forbidden_and_admin ["SELLER", "ADMIN"] ⟨"b1", "b@b.c", "BUYER"⟩
     ⟨"a1", "a@b.c", "ADMIN"⟩ (by decide) rfl).2.2 "order:create"⟩

/-- C2: starting from a zero failure counter and no lock, five consecutive
logins with a wrong password leave the account locked until the 15-minute
window ends, so a 6th login with the correct password inside the window fails
with AuthenticationError (rejected on the lock check, before password
verification), while a login with the correct password once the window has
elapsed succeeds. -/
theorem C2_five_failures_lock_then_unlock
    (kdf : List Char → List Char → List Char) (cfg : JwtConfig)
    (i e rl : String) (ph : List Char) (ll : Option Nat)
    (rts : List TokenRecord) (p q : List Char) (t1 t2 t3 t4 t5 t6 t7 : Nat)
    (hene : e ≠ "") (hpne : p ≠ []) (hqne : q ≠ [])
    (hwrong : verifyPassword kdf q ph = false)
    (hright : verifyPassword kdf p ph = true)
    (h6 : t6 < t5 + lockDurationSeconds)
    (h7 : t5 + lockDurationSeconds ≤ t7) :
    (login kdf cfg
      (login kdf cfg (login kdf cfg (login kdf cfg (login kdf cfg
        (login kdf cfg ⟨[⟨i, e, ph, rl, true, 0, none, ll⟩], rts⟩
          t1 e q).1 t2 e q).1 t3 e q).1 t4 e q).1 t5 e q).1
      t6 e p).2 =
      .error (.authenticationError "Account is temporarily locked") ∧
    (login kdf cfg
      (login kdf cfg (login kdf cfg (login kdf cfg (login kdf cfg
        (login kdf cfg ⟨[⟨i, e, ph, rl, true, 0, none, ll⟩], rts⟩
          t1 e q).1 t2 e q).1 t3 e q).1 t4 e q).1 t5 e q).1
      t7 e p).2 =
      .ok ⟨i, e, rl, generateAccessToken cfg t7 i e rl,
           generateRefreshToken cfg t7 i⟩ := by
  have hlockNone : ∀ n tt,
      accountLocked ⟨i, e, ph, rl, true, n, none, ll⟩ tt = false := by
    intro n tt
    simp [accountLocked]
  have s1 : login kdf cfg ⟨[⟨i, e, ph, rl, true, 0, none, ll⟩], rts⟩ t1 e q =
      (⟨[⟨i, e, ph, rl, true, 1, none, ll⟩], rts⟩,
       .error (.authenticationError "Invalid credentials")) := by
    simpa [MAX_FAILED_ATTEMPTS] using
      login_wrong_password kdf cfg i e rl ph ll none 0 rts t1 q hene hqne
        (hlockNone 0 t1) hwrong
  have s2 : login kdf cfg ⟨[⟨i, e, ph, rl, true, 1, none, ll⟩], rts⟩ t2 e q =
      (⟨[⟨i, e, ph, rl, true, 2, none, ll⟩], rts⟩,
       .error (.authenticationError "Invalid credentials")) := by
    simpa [MAX_FAILED_ATTEMPTS] using
      login_wrong_password kdf cfg i e rl ph ll none 1 rts t2 q hene hqne
        (hlockNone 1 t2) hwrong
  have s3 : login kdf cfg ⟨[⟨i, e, ph, rl, true, 2, none, ll⟩], rts⟩ t3 e q =
      (⟨[⟨i, e, ph, rl, true, 3, none, ll⟩], rts⟩,
       .error (.authenticationError "Invalid credentials")) := by
    simpa [MAX_FAILED_ATTEMPTS] using
      login_wrong_password kdf cfg i e rl ph ll none 2 rts t3 q hene hqne
        (hlockNone 2 t3) hwrong
  have s4 : login kdf cfg ⟨[⟨i, e, ph, rl, true, 3, none, ll⟩], rts⟩ t4 e q =
      (⟨[⟨i, e, ph, rl, true, 4, none, ll⟩], rts⟩,
       .error (.authenticationError "Invalid credentials")) := by
    simpa [MAX_FAILED_ATTEMPTS] using
      login_wrong_password kdf cfg i e rl ph ll none 3 rts t4 q hene hqne
        (hlockNone 3 t4) hwrong
  have s5 : login kdf cfg ⟨[⟨i, e, ph, rl, true, 4, none, ll⟩], rts⟩ t5 e q =
      (⟨[⟨i, e, ph, rl, true, 5, some (t5 + lockDurationSeconds), ll⟩], rts⟩,
       .error (.authenticationError "Invalid credentials")) := by
    simpa [MAX_FAILED_ATTEMPTS] using
      login_wrong_password kdf cfg i e rl ph ll none 4 rts t5 q hene hqne
        (hlockNone 4 t5) hwrong
  have hlocked7 :
      accountLocked ⟨i, e, ph, rl, true, 5, some (t5 + lockDurationSeconds),
        ll⟩ t7 = false := by
    simp [accountLocked, Nat.not_lt.mpr h7]
  constructor
  · simp only [s1, s2, s3, s4, s5]
    exact (congrArg Prod.snd
      (login_while_locked kdf cfg i e rl ph ll (t5 + lockDurationSeconds) 5 rts
        t6 p hene hpne h6))
  · simp only [s1, s2, s3, s4, s5]
    exact (congrArg Prod.snd
      (login_right_password kdf cfg i e rl ph ll
        (some (t5 + lockDurationSeconds)) 5 rts t7 p hene hpne hlocked7
        hright))

theorem C2_witness :
    (verifyPassword kdfId "Wrong1234".toList
      (hashPassword kdfId "salt".toList "Secret123".toList) = false) ∧
    (verifyPassword kdfId "Secret123".toList
      (hashPassword kdfId "salt".toList "Secret123".toList) = true) ∧
    (10 < 0 + lockDurationSeconds) ∧
    (0 + lockDurationSeconds ≤ 900) ∧
    (login kdfId (defaultJwtConfig "k")
      (login kdfId (defaultJwtConfig "k") (login kdfId (defaultJwtConfig "k")
        (login kdfId (defaultJwtConfig "k") (login kdfId (defaultJwtConfig "k")
        (login kdfId (defaultJwtConfig "k")
          ⟨[⟨"u1", "a@b.c",
             hashPassword kdfId "salt".toList "Secret123".toList, "BUYER",
             true, 0, none, none⟩], []⟩
          0 "a@b.c" "Wrong1234".toList).1 0 "a@b.c" "Wrong1234".toList).1
          0 "a@b.c" "Wrong1234".toList).1 0 "a@b.c" "Wrong1234".toList).1
          0 "a@b.c" "Wrong1234".toList).1
      10 "a@b.c" "Secret123".toList).2 =
      .error (.authenticationError "Account is temporarily locked") ∧
    (login kdfId (defaultJwtConfig "k")
      (login kdfId (defaultJwtConfig "k") (login kdfId (defaultJwtConfig "k")
        (login kdfId (defaultJwtConfig "k") (login kdfId (defaultJwtConfig "k")
        (login kdfId (defaultJwtConfig "k")
          ⟨[⟨"u1", "a@b.c",
             hashPassword kdfId "salt".toList "Secret123".toList, "BUYER",
             true, 0, none, none⟩], []⟩
          0 "a@b.c" "Wrong1234".toList).1 0 "a@b.c" "Wrong1234".toList).1
          0 "a@b.c" "Wrong1234".toList).1 0 "a@b.c" "Wrong1234".toList).1
          0 "a@b.c" "Wrong1234".toList).1
      900 "a@b.c" "Secret123".toList).2 =
      .ok ⟨"u1", "a@b.c", "BUYER",
           generateAccessToken (defaultJwtConfig "k") 900 "u1" "a@b.c" "BUYER",
           generateRefreshToken (defaultJwtConfig "k") 900 "u1"⟩ :=
  ⟨by decide, by decide, by decide, by decide,
   (C2_five_failures_lock_then_unlock kdfId (defaultJwtConfig "k") "u1"
     "a@b.c" "BUYER" (hashPassword kdfId "salt".toList "Secret123".toList)
     none [] "Secret123".toList "Wrong1234".toList 0 0 0 0 0 10 900
     (by decide) (by decide) (by decide) (by decide) (by decide) (by decide)
     (by decide)).1,
   (C2_five_failures_lock_then_unlock kdfId (defaultJwtConfig "k") "u1"
     "a@b.c" "BUYER" (hashPassword kdfId "salt".toList "Secret123".toList)
     none [] "Secret123".toList "Wrong1234".toList 0 0 0 0 0 10 900
     (by decide) (by decide) (by decide) (by decide) (by decide) (by decide)
     (by decide)).2⟩

/-- C3 counterexample: after five failed logins (at time 0) the lock expires
at `lockDurationSeconds`; at that moment the lazy lock check reports the
account unlocked, yet the failed-attempt counter still reads 5, not 0 — lock
expiry alone never resets the counter. -/
theorem C3_counterexample :
    (login kdfId (defaultJwtConfig "k") (login kdfId (defaultJwtConfig "k")
      (login kdfId (defaultJwtConfig "k") (login kdfId (defaultJwtConfig "k")
      (login kdfId (defaultJwtConfig "k")
        ⟨[⟨"u1", "a@b.c",
           hashPassword kdfId "salt".toList "Secret123".toList, "BUYER",
           true, 0, none, none⟩], []⟩
        0 "a@b.c" "Wrong1234".toList).1 0 "a@b.c" "Wrong1234".toList).1
        0 "a@b.c" "Wrong1234".toList).1 0 "a@b.c" "Wrong1234".toList).1
      0 "a@b.c" "Wrong1234".toList).1.users.map
      (fun u => (accountLocked u lockDurationSeconds,
                 u.failedLoginAttempts)) = [(false, 5)] ∧
    ¬ ((login kdfId (defaultJwtConfig "k") (login kdfId (defaultJwtConfig "k")
      (login kdfId (defaultJwtConfig "k") (login kdfId (defaultJwtConfig "k")
      (login kdfId (defaultJwtConfig "k")
        ⟨[⟨"u1", "a@b.c",
           hashPassword kdfId "salt".toList "Secret123".toList, "BUYER",
           true, 0, none, none⟩], []⟩
        0 "a@b.c" "Wrong1234".toList).1 0 "a@b.c" "Wrong1234".toList).1
        0 "a@b.c" "Wrong1234".toList).1 0 "a@b.c" "Wrong1234".toList).1
        0 "a@b.c" "Wrong1234".toList).1.users.map
      (·.failedLoginAttempts) = [0]) := by
  constructor
  · decide
  · decide

/-- C3 (amended): per-user lockout state machine as implemented — a failure
while the account is unlocked increments the counter, and when the new
counter reaches the threshold of 5 the lock-expiry is set to now + 15
minutes (below the threshold the lock field is untouched); an explicit login
success resets the counter to 0 and clears the lock; lock expiry is checked
lazily against the wall clock and unlocks the account without touching the
stored state, so the counter keeps its value until a successful login (and a
further failure at or past the threshold immediately re-locks). -/
theorem C3_lockout_state_machine
    (kdf : List Char → List Char → List Char) (cfg : JwtConfig)
    (i e rl : String) (ph : List Char) (ll lock : Option Nat) (n : Nat)
    (rts : List TokenRecord) (now : Nat) (p q : List Char)
    (hene : e ≠ "") (hpne : p ≠ []) (hqne : q ≠ [])
    (hwrong : verifyPassword kdf q ph = false)
    (hright : verifyPassword kdf p ph = true)
    (hunlocked : accountLocked ⟨i, e, ph, rl, true, n, lock, ll⟩ now = false) :
    (login kdf cfg ⟨[⟨i, e, ph, rl, true, n, lock, ll⟩], rts⟩
        now e q).1.users =
      [⟨i, e, ph, rl, true, n + 1,
        if MAX_FAILED_ATTEMPTS ≤ n + 1 then some (now + lockDurationSeconds)
        else lock, ll⟩] ∧
    (login kdf cfg ⟨[⟨i, e, ph, rl, true, n, lock, ll⟩], rts⟩
        now e p).1.users =
      [⟨i, e, ph, rl, true, 0, none, some now⟩] ∧
    (∀ l t, l ≤ t →
      accountLocked ⟨i, e, ph, rl, true, n, some l, ll⟩ t = false) := by
  refine ⟨?_, ?_, ?_⟩
  · rw [login_wrong_password kdf cfg i e rl ph ll lock n rts now q hene hqne
      hunlocked hwrong]
  · rw [login_right_password kdf cfg i e rl ph ll lock n rts now p hene hpne
      hunlocked hright]
  · intro l t hlt
    simp [accountLocked, Nat.not_lt.mpr hlt]

theorem C3_witness :
    (verifyPassword kdfId "Wrong1234".toList
      (hashPassword kdfId "salt".toList "Secret123".toList) = false) ∧
    (login kdfId (defaultJwtConfig "k")
      ⟨[⟨"u1", "a@b.c", hashPassword kdfId "salt".toList "Secret123".toList,
         "BUYER", true, 4, none, none⟩], []⟩
      7 "a@b.c" "Wrong1234".toList).1.users =
      [⟨"u1", "a@b.c", hashPassword kdfId "salt".toList "Secret123".toList,
        "BUYER", true, 4 + 1,
        if MAX_FAILED_ATTEMPTS ≤ 4 + 1 then some (7 + lockDurationSeconds)
        else none, none⟩] ∧
    (login kdfId (defaultJwtConfig "k")
      ⟨[⟨"u1", "a@b.c", hashPassword kdfId "salt".toList "Secret123".toList,
         "BUYER", true, 4, none, none⟩], []⟩
      7 "a@b.c" "Secret123".toList).1.users =
      [⟨"u1", "a@b.c", hashPassword kdfId "salt".toList "Secret123".toList,
        "BUYER", true, 0, none, some 7⟩] :=
  ⟨by decide,
   (C3_lockout_state_machine kdfId (defaultJwtConfig "k") "u1" "a@b.c"
     "BUYER" (hashPassword kdfId "salt".toList "Secret123".toList) none none
     4 [] 7 "Secret123".toList "Wrong1234".toList (by decide) (by decide)
     (by decide) (by decide) (by decide) (by decide)).1,
   (C3_lockout_state_machine kdfId (defaultJwtConfig "k") "u1" "a@b.c"
     "BUYER" (hashPassword kdfId "salt".toList "Secret123".toList) none none
     4 [] 7 "Secret123".toList "Wrong1234".toList (by decide) (by decide)
     (by decide) (by decide) (by decide) (by decide)).2.1⟩

end Marketplace
